import Mathlib

/-!
Verification of the Adaptive Query Orchestrator of the
`build-on-aws-genai-pro` repository.

The definitions below are a shallow embedding of the Python source:

* `enterprise_genai_knowledge_assistant/lambda/query_handler/app.py`
  (complexity scorer, model tier selector, fallback invoker, response
  cache, re-ranker and the Lambda `handler` pipeline);
* `enterprise_genai_knowledge_assistant/lambda/query_handler/quality_evaluator.py`
  (the six quality dimensions and the weighted overall score);
* `01_1.5_customer_support_ai_assistant/app/guardrails_manager.py` and
  `01_1.5_customer_support_ai_assistant/lambda_capture_query.py`
  (regex guardrails and the capture Lambda that consumes them).

Pure Python functions become Lean functions; the external collaborators
(Bedrock inference, OpenSearch, Comprehend, DynamoDB) are modelled as
oracle fields of an environment record, and each externally observable
action of the handler is recorded in an explicit execution trace.
Machine floats are modelled as exact rationals, timestamps as naturals,
and a Python function that may raise is given the type `Except Unit _`.
-/

namespace GenAI

/-! ## String helpers shared by several components

The embedding works on the character list underlying a `String`, so
that every definition reduces inside the kernel.  `lowerStr` models
Python `str.lower()`, `pyTrim` models `str.strip()`, `pySplit` models
`str.split()` (split on whitespace runs, dropping empty pieces),
`containsSub hay needle` models the substring test `needle in hay`,
and `wordRuns` models `re.findall(r'\w+', s)`: the maximal runs of
word characters.  Character classes are read in their ASCII meaning,
which agrees with Python on every string the repository handles. -/

def lowerStr (s : String) : String :=
  ⟨s.data.map Char.toLower⟩

def pyTrim (s : String) : String :=
  ⟨((s.data.dropWhile Char.isWhitespace).reverse.dropWhile Char.isWhitespace).reverse⟩

/-- Split a character list at separator characters, dropping empty
pieces (the behaviour of argument-less Python `str.split()`); `acc`
holds the current run, reversed. -/
def splitDrop (p : Char → Bool) : List Char → List Char → List String
  | [], acc => if acc.isEmpty then [] else [⟨acc.reverse⟩]
  | c :: cs, acc =>
    if p c then
      if acc.isEmpty then splitDrop p cs []
      else (⟨acc.reverse⟩ : String) :: splitDrop p cs []
    else splitDrop p cs (c :: acc)

def pySplit (s : String) : List String :=
  splitDrop Char.isWhitespace s.data []

/-- Split at every occurrence of `sep`, keeping empty pieces — Python
`str.split(sep)` for a one-character separator. -/
def splitOnChar (sep : Char) : List Char → List (List Char)
  | [] => [[]]
  | c :: cs =>
    let r := splitOnChar sep cs
    if c = sep then [] :: r
    else
      match r with
      | h :: t => (c :: h) :: t
      | [] => [[c]]

/-- Python `sep.join(parts)`. -/
def pyJoin (sep : String) : List String → String
  | [] => ""
  | [x] => x
  | x :: y :: xs => x ++ sep ++ pyJoin sep (y :: xs)

def containsSub (hay needle : String) : Bool :=
  (hay.data.tails).any (fun t => needle.data.isPrefixOf t)

def isWordChar (c : Char) : Bool :=
  c.isAlphanum || c = '_'

def wordRuns (s : String) : List String :=
  splitDrop (fun c => !isWordChar c) s.data []

/-- A conversation exchange as stored in the DynamoDB conversation
table (`store_conversation` in `app.py`): a query and a response. -/
structure ConversationTurn where
  query : String
  response : String
deriving DecidableEq, Repr

/-! ## Complexity scorer — `analyze_query_complexity` (`app.py` 386-458) -/

/-- The `complex_indicators` keyword-family table of
`analyze_query_complexity` (`app.py` 416-422). -/
def complex_indicators : List (String × List String) :=
  [("comparison", ["compare", "difference between", "versus", "vs"]),
   ("analysis", ["analyze", "evaluation", "assessment", "critique"]),
   ("explanation", ["explain", "why", "how does", "what causes"]),
   ("reasoning", ["pros and cons", "advantages", "disadvantages", "trade-offs"]),
   ("multi-step", ["first", "then", "finally", "step by step"])]

/-- The `technical_domains` keyword-family table of
`analyze_query_complexity` (`app.py` 430-435). -/
def technical_domains : List (String × List String) :=
  [("architecture", ["architecture", "design pattern", "infrastructure", "topology"]),
   ("security", ["security", "authentication", "encryption", "vulnerability"]),
   ("performance", ["optimization", "performance", "latency", "throughput"]),
   ("implementation", ["implementation", "configuration", "deployment", "integration"])]

/-- The `question_types` table of `analyze_query_complexity`
(`app.py` 443-450), in Python dict insertion order. -/
def question_types : List (String × Nat) :=
  [("what", 5), ("how", 10), ("why", 15), ("when", 5), ("where", 5), ("which", 10)]

/-- `analyze_query_complexity(query, conversation_history)`
(`app.py` 386-458).  Returns the score together with the factor tags,
accumulated in the same order as the Python code appends them.
The per-family loops become left folds; the question-type loop with its
`break` becomes `List.find?` (first insertion-order match only). -/
def analyze_query_complexity (query : String) (conversation_history : List ConversationTurn) :
    Nat × List String :=
  let ql := lowerStr query
  let query_length := (pySplit query).length
  let step1 : Nat × List String :=
    if query_length < 5 then (5, ["very_short"])
    else if query_length < 10 then (10, ["short"])
    else if query_length < 20 then (15, ["medium"])
    else (20, ["long"])
  let conversation_length := conversation_history.length
  let step2 : Nat × List String :=
    (step1.1 + min (conversation_length * 3) 15,
     step1.2 ++ (if conversation_length > 5 then ["deep_conversation"] else []))
  let step3 := complex_indicators.foldl
    (fun acc cat =>
      if cat.2.any (fun kw => containsSub ql kw) then
        (acc.1 + 5, acc.2 ++ ["complex_" ++ cat.1])
      else acc) step2
  let step4 := technical_domains.foldl
    (fun acc dom =>
      if dom.2.any (fun kw => containsSub ql kw) then
        (acc.1 + 5, acc.2 ++ ["technical_" ++ dom.1])
      else acc) step3
  let step5 :=
    match question_types.find? (fun qt => qt.1.data.isPrefixOf ql.data) with
    | some qt => (step4.1 + qt.2, step4.2 ++ ["question_" ++ qt.1])
    | none => step4
  (min step5.1 100, step5.2)

/-! ## Model tiers and tier selector — `select_model_tier` (`app.py` 461-475) -/

/-- The three inference tiers of the `models` table (`app.py` 90-112). -/
inductive Tier
  | simple
  | standard
  | advanced
deriving DecidableEq, Repr

/-- Static per-tier model configuration (`models` in `app.py` 90-112). -/
structure ModelConfig where
  id : String
  max_tokens : Nat
  temperature : ℚ
  cost_per_1k_input : ℚ
  cost_per_1k_output : ℚ
deriving DecidableEq, Repr

/-- The `models` configuration dict (`app.py` 90-112). -/
def models : Tier → ModelConfig
  | .simple =>
    { id := "anthropic.claude-3-haiku-20240307-v1:0", max_tokens := 1000,
      temperature := 2/10, cost_per_1k_input := 25/100000, cost_per_1k_output := 125/100000 }
  | .standard =>
    { id := "anthropic.claude-3-sonnet-20240229-v1:0", max_tokens := 2000,
      temperature := 7/10, cost_per_1k_input := 800/100000, cost_per_1k_output := 2400/100000 }
  | .advanced =>
    { id := "anthropic.claude-3-5-sonnet-20240620-v1:0", max_tokens := 4000,
      temperature := 7/10, cost_per_1k_input := 300/100000, cost_per_1k_output := 1500/100000 }

/-- The threshold branch of `select_model_tier` (`app.py` 470-475). -/
def tierOfScore (complexity_score : Nat) : Tier :=
  if complexity_score ≥ 60 then .advanced
  else if complexity_score ≥ 30 then .standard
  else .simple

/-- `select_model_tier(query, conversation_history)` (`app.py` 461-475):
scores the query and maps the score to a tier via fixed thresholds. -/
def select_model_tier (query : String) (conversation_history : List ConversationTurn) :
    Tier × Nat :=
  let complexity_score := (analyze_query_complexity query conversation_history).1
  (tierOfScore complexity_score, complexity_score)

/-- Capability order on tiers (`simple` lowest, `advanced` highest);
used to state that tier selection is monotone in the score. -/
def tierRank : Tier → Nat
  | .simple => 0
  | .standard => 1
  | .advanced => 2

/-! ## Fallback invoker — `invoke_model_with_fallback` (`app.py` 649-686)

`invoke_model` (`app.py` 618-647) performs the Bedrock call and either
returns the generated text or re-raises; it is modelled by an oracle
`attempt : Tier → Except Unit String` fixing, for the one request under
consideration, the outcome of invoking each tier's model. -/

/-- The `fallback_chain` dict of `invoke_model_with_fallback`
(`app.py` 655-659). -/
def fallback_chain : Tier → List Tier
  | .advanced => [.advanced, .standard, .simple]
  | .standard => [.standard, .simple]
  | .simple => [.simple]

/-- The fixed apology returned when the whole chain fails
(`app.py` 684). -/
def apologyMessage : String :=
  "I apologize, but I'm experiencing technical difficulties. Please try again in a moment."

/-- The `for tier in tiers_to_try` loop of `invoke_model_with_fallback`
(`app.py` 663-686).  `full` is the complete `tiers_to_try` list (the
Python code compares the failing tier against `tiers_to_try[-1]`).
Alongside the returned text we record the tier whose call succeeded
(`none` on the apology path) — exactly the information the source
prints in its `Fallback successful` / `Attempting model` log lines.
A `none` result models the loop falling through and the Python function
implicitly returning `None`. -/
def fallbackLoop (attempt : Tier → Except Unit String) (full : List Tier) :
    List Tier → Option (String × Option Tier)
  | [] => none
  | t :: rest =>
    match attempt t with
    | .ok r => some (r, some t)
    | .error _ =>
      if full.getLast? = some t then some (apologyMessage, none)
      else fallbackLoop attempt full rest

/-- `invoke_model_with_fallback(model_tier, ...)` (`app.py` 649-686)
together with the tier whose call succeeded. -/
def fallbackRun (attempt : Tier → Except Unit String) (model_tier : Tier) :
    Option (String × Option Tier) :=
  fallbackLoop attempt (fallback_chain model_tier) (fallback_chain model_tier)

/-- The value `invoke_model_with_fallback` actually returns to its
caller: only the text. -/
def invoke_model_with_fallback (attempt : Tier → Except Unit String) (model_tier : Tier) :
    Option String :=
  (fallbackRun attempt model_tier).map Prod.fst

/-- The tier whose model call produced the returned text (`none` when
the apology was returned), as reported by the source's log lines. -/
def tierUsed (attempt : Tier → Except Unit String) (model_tier : Tier) : Option Tier :=
  match fallbackRun attempt model_tier with
  | some (_, t) => t
  | none => none

/-! ## Response cache — `get_cached_response` / `cache_response`
(`app.py` 776-842)

The DynamoDB conversation table doubles as the cache; a cache item is
keyed by `conversation_id = "cache_" + md5(query.lower().strip())` and
`timestamp = 0`.  The store is modelled as a partial map from that key
to the cache item, the md5 digest as an abstract `hash` function, and
`time.time()` as a natural-number clock.  The (opaque, JSON round
tripped) `response_data` payload is a type parameter. -/

/-- `CACHE_TTL_SECONDS` (`app.py` 51). -/
def CACHE_TTL_SECONDS : Nat := 3600

/-- A cache item as written by `cache_response` (`app.py` 830-837):
the raw query, the serialized payload, the write time and the DynamoDB
TTL attribute. -/
structure CacheEntry (α : Type) where
  query : String
  response_data : α
  cached_at : Nat
  ttl : Nat
deriving DecidableEq, Repr

/-- The cache key `"cache_" + md5(query.lower().strip())` built by both
`get_cached_response` and `cache_response` (`app.py` 785, 825). -/
def cacheKey (hash : String → String) (query : String) : String :=
  "cache_" ++ hash (pyTrim (lowerStr query))

/-- `get_cached_response(query, conversation_id)` (`app.py` 776-813):
fetch by key; if present and younger than the TTL return the stored
payload, otherwise report a miss. -/
def get_cached_response {α : Type} (hash : String → String)
    (store : String → Option (CacheEntry α)) (now : Nat) (query : String) : Option α :=
  match store (cacheKey hash query) with
  | some item =>
    if now - item.cached_at < CACHE_TTL_SECONDS then some item.response_data else none
  | none => none

/-- `cache_response(query, conversation_id, response_data)`
(`app.py` 816-842): blind-write the payload under the query's key with
the current time. -/
def cache_response {α : Type} (hash : String → String)
    (store : String → Option (CacheEntry α)) (now : Nat) (query : String)
    (response_data : α) : String → Option (CacheEntry α) :=
  fun k =>
    if k = cacheKey hash query then
      some { query := query, response_data := response_data,
             cached_at := now, ttl := now + CACHE_TTL_SECONDS }
    else store k

/-! ## Retrieval re-ranker — `rerank_chunks` (`app.py` 871-904) -/

/-- A retrieved document chunk as parsed from the OpenSearch hit list
(`app.py` 554-561). -/
structure ContextChunk where
  text : String
  document_id : String
  chunk_id : String
  score : ℚ
deriving DecidableEq, Repr

/-- The adjusted score `rerank_chunks` attaches to a chunk
(`app.py` 885-899): ×0.8 penalty under 100 words, then ×(1 + 0.3 ×
query-term overlap).  `query_terms` is the deduplicated term set of the
lowercased query. -/
def rerankAdjustedScore (query_terms : List String) (chunk : ContextChunk) : ℚ :=
  let afterLength :=
    if (pySplit chunk.text).length < 100 then chunk.score * (8/10) else chunk.score
  let chunk_terms := (pySplit (lowerStr chunk.text)).dedup
  let keyword_overlap : ℚ :=
    if query_terms.length = 0 then 0
    else ((query_terms.filter (fun t => chunk_terms.contains t)).length : ℚ) / query_terms.length
  afterLength * (1 + keyword_overlap * (3/10))

/-- `rerank_chunks(query, chunks, top_k=5)` (`app.py` 871-904): stable
descending sort by adjusted score, truncated to `top_k`.  The adjusted
score is only used for ordering; each returned element keeps its
original fields, which is all the downstream consumers read. -/
def rerank_chunks (query : String) (chunks : List ContextChunk) (top_k : Nat) :
    List ContextChunk :=
  if chunks = [] then chunks
  else
    let query_terms := (pySplit (lowerStr query)).dedup
    let adj := rerankAdjustedScore query_terms
    (chunks.mergeSort (fun a b => decide (adj b ≤ adj a))).take top_k

/-! ## Quality evaluator — `quality_evaluator.py`

The six dimension heuristics of `QualityEvaluator` and the weighted
overall score.  All float arithmetic is exact rational arithmetic; the
DynamoDB/CloudWatch writes of `evaluate_response_quality` are plumbing
with no influence on the returned scores. -/

/-- `_calculate_relevance_score` (`quality_evaluator.py` 78-105). -/
def relevanceScore (query response : String) (chunks : List ContextChunk) : ℚ :=
  let query_keywords := ((wordRuns (lowerStr query)).filter (fun w => w.length > 3)).dedup
  let response_keywords := (wordRuns (lowerStr response)).dedup
  if query_keywords.length = 0 then 1/2
  else
    let overlap : ℚ :=
      ((query_keywords.filter (fun w => response_keywords.contains w)).length : ℚ) /
        query_keywords.length
    let score :=
      if chunks.length ≠ 0 then
        let avg_chunk_score := (chunks.map (·.score)).sum / chunks.length
        overlap * (6/10) + avg_chunk_score * (4/10)
      else overlap
    min (max score 0) 1

/-- The transition-word table of `_calculate_coherence_score`
(`quality_evaluator.py` 127-128). -/
def transitionWords : List String :=
  ["however", "therefore", "additionally", "furthermore",
   "moreover", "consequently", "thus", "hence", "for example"]

/-- Does the string end with `.`, `!` or `?` — Python
`response.endswith(('.', '!', '?'))`. -/
def endsWithTerminal (s : String) : Bool :=
  match s.toList.getLast? with
  | some c => c = '.' || c = '!' || c = '?'
  | none => false

/-- `_calculate_coherence_score` (`quality_evaluator.py` 107-151).
`response[0]` is only evaluated on the non-empty-sentence path, where
the response is non-empty, so the total `String.front` is faithful. -/
def coherenceScore (response : String) : ℚ :=
  let sentences := (((splitOnChar '.' response.data).map (fun l => pyTrim ⟨l⟩)).filter (· ≠ ""))
  if sentences.length = 0 then 0
  else
    let avg_length : ℚ :=
      ((sentences.map (fun s => (pySplit s).length)).sum : ℚ) / sentences.length
    let s1 : ℚ :=
      if 10 ≤ avg_length ∧ avg_length ≤ 25 then 3/10
      else if 5 ≤ avg_length ∧ avg_length ≤ 35 then 15/100
      else 0
    let s2 : ℚ := if transitionWords.any (fun t => containsSub (lowerStr response) t) then 2/10 else 0
    let unique_words := ((pySplit (lowerStr response)).dedup).length
    let total_words := (pySplit response).length
    let s3 : ℚ :=
      if total_words > 0 then
        let uniqueness : ℚ := (unique_words : ℚ) / total_words
        if uniqueness > 1/2 then 3/10
        else if uniqueness > 3/10 then 15/100
        else 0
      else 0
    let s4 : ℚ := if response.front.isUpper && endsWithTerminal response then 2/10 else 0
    min (s1 + s2 + s3 + s4) 1

/-- The question-word/indicator table of `_calculate_completeness_score`
(`quality_evaluator.py` 173-180). -/
def completenessQuestionWords : List (String × List String) :=
  [("what", ["is", "are", "definition", "means"]),
   ("how", ["by", "through", "steps", "process"]),
   ("why", ["because", "due to", "reason", "since"]),
   ("when", ["time", "date", "during", "after", "before"]),
   ("where", ["location", "place", "at", "in"]),
   ("who", ["person", "people", "individual", "organization"])]

/-- `_calculate_completeness_score` (`quality_evaluator.py` 153-206).
The question-word loop breaks after the first +0.3, so it contributes
0.3 exactly when some table entry has its question word in the query
and one of its indicators in the response. -/
def completenessScore (query response : String) : ℚ :=
  let word_count := (pySplit response).length
  let s1 : ℚ :=
    if word_count > 50 then 4/10
    else if word_count > 20 then 3/10
    else if word_count > 10 then 2/10
    else 1/10
  let query_lower := lowerStr query
  let response_lower := lowerStr response
  let s2 : ℚ :=
    if completenessQuestionWords.any
        (fun qw => containsSub query_lower qw.1 &&
          qw.2.any (fun ind => containsSub response_lower ind)) then 3/10
    else 0
  let s3 : ℚ :=
    if ["for example", "for instance", "such as", "like"].any
        (fun p => containsSub response_lower p) then 2/10
    else 0
  let s4 : ℚ :=
    if containsSub response "I don't" || containsSub response "I cannot" ||
        containsSub response "I'm not sure" then 1/10
    else 0
  min (s1 + s2 + s3 + s4) 1

/-- `_calculate_accuracy_score` (`quality_evaluator.py` 208-226):
the mean chunk score, plus a `min (· + 0.1) 1` bonus when at least
three chunks score above 0.8.  Note that outside the bonus branch the
mean is **not** clamped. -/
def accuracyScore (chunks : List ContextChunk) : ℚ :=
  if chunks.length = 0 then 0
  else
    let avg_score := (chunks.map (·.score)).sum / chunks.length
    let high_quality_chunks := (chunks.filter (fun c => c.score > 8/10)).length
    if high_quality_chunks ≥ 3 then min (avg_score + 1/10) 1 else avg_score

/-- `_calculate_conciseness_score` (`quality_evaluator.py` 228-251). -/
def concisenessScore (response : String) : ℚ :=
  let word_count := (pySplit response).length
  if 50 ≤ word_count ∧ word_count ≤ 200 then 1
  else if 30 ≤ word_count ∧ word_count < 50 then 8/10
  else if 200 < word_count ∧ word_count ≤ 300 then 8/10
  else if 20 ≤ word_count ∧ word_count < 30 then 6/10
  else if 300 < word_count ∧ word_count ≤ 500 then 6/10
  else if word_count < 20 then 3/10
  else 4/10

/-- `_calculate_groundedness_score` (`quality_evaluator.py` 253-286). -/
def groundednessScore (response : String) (chunks : List ContextChunk) : ℚ :=
  if chunks.length = 0 then 0
  else
    let chunk_text := pyJoin " " (chunks.map (·.text))
    let chunk_keywords := ((wordRuns (lowerStr chunk_text)).filter (fun w => w.length > 4)).dedup
    let response_keywords := ((wordRuns (lowerStr response)).filter (fun w => w.length > 4)).dedup
    if response_keywords.length = 0 then 0
    else
      let overlap : ℚ :=
        ((response_keywords.filter (fun w => chunk_keywords.contains w)).length : ℚ) /
          response_keywords.length
      if ["according to", "based on", "as mentioned", "the document"].any
          (fun p => containsSub (lowerStr response) p) then min (overlap + 1/10) 1
      else overlap

/-- The six dimension scores plus the weighted overall score returned
by `evaluate_response_quality`. -/
structure QualityScores where
  relevance : ℚ
  coherence : ℚ
  completeness : ℚ
  accuracy : ℚ
  conciseness : ℚ
  groundedness : ℚ
  overall : ℚ
deriving DecidableEq, Repr

/-- `_calculate_overall_score` (`quality_evaluator.py` 288-300):
fixed-weight linear combination of the six dimensions. -/
def calculate_overall_score (relevance coherence completeness accuracy conciseness
    groundedness : ℚ) : ℚ :=
  relevance * (25/100) + coherence * (15/100) + completeness * (20/100) +
    accuracy * (20/100) + conciseness * (10/100) + groundedness * (10/100)

/-- `evaluate_response_quality(query, response, relevant_chunks, ...)`
(`quality_evaluator.py` 27-76) on its exception-free path. -/
def evaluate_response_quality (query response : String) (relevant_chunks : List ContextChunk) :
    QualityScores :=
  let relevance := relevanceScore query response relevant_chunks
  let coherence := coherenceScore response
  let completeness := completenessScore query response
  let accuracy := accuracyScore relevant_chunks
  let conciseness := concisenessScore response
  let groundedness := groundednessScore response relevant_chunks
  { relevance := relevance, coherence := coherence, completeness := completeness,
    accuracy := accuracy, conciseness := conciseness, groundedness := groundedness,
    overall := calculate_overall_score relevance coherence completeness accuracy
      conciseness groundedness }

/-! ## The query handler pipeline — `handler` (`app.py` 115-351)

The Lambda `handler` is embedded as a pure function of an environment
record that fixes, for the one request under consideration, the answer
of every external collaborator (guardrail verdicts, PII detection,
conversation history, cache store and clock, search results, per-tier
model outcomes, output-safety verdicts, token counts).  Every
externally observable action is appended to an execution trace in the
order the source performs it.  The feedback sub-path and the
`stream=True` branch are out of scope (the request is a plain
non-streaming query), and prompt assembly plus the tiktoken count are
collapsed into an opaque `promptTokens` field, since no decision logic
reads the prompt string itself. -/

/-- The fixed safe substitute installed when the output guardrail
intervenes (`app.py` 235). -/
def safeResponseMessage : String :=
  "I apologize, but I cannot provide this response due to content safety policies."

/-- One externally observable action of the handler, with the payload
the source hands to the collaborator. -/
inductive Step
  | safetyIn (text : String)
  | piiDetect (text : String)
  | historyFetch
  | cacheLookup (query : String)
  | complexityStep
  | retrieveStep (query : String)
  | rerankStep
  | promptAssemble
  | modelInvoke (tier : Tier)
  | safetyOut (text : String)
  | auditResponseBlocked
  | storeConv (query response : String)
  | logMetrics
  | storeEval
  | qualityEval (query response : String)
  | auditQuery
  | cacheWrite (query : String)
deriving DecidableEq, Repr

/-- `calculate_cost` (`app.py` 707-711). -/
def calculate_cost (prompt_tokens response_tokens : Nat) (model_config : ModelConfig) : ℚ :=
  ((prompt_tokens : ℚ) / 1000) * model_config.cost_per_1k_input +
    ((response_tokens : ℚ) / 1000) * model_config.cost_per_1k_output

/-- The `response_data` dict assembled by the handler
(`app.py` 307-331), with the nested `tokens` and `governance` dicts
flattened into fields. -/
structure ResponseData where
  request_id : String
  conversation_id : String
  response : String
  model : String
  model_tier : Tier
  complexity_score : Nat
  latency : ℚ
  prompt_tokens : Nat
  response_tokens : Nat
  cost : ℚ
  has_pii : Bool
  pii_redacted : Bool
  sources : List (String × ℚ)
  cached : Bool
  guardrails_applied : Bool
  pii_detected : Bool
  audit_logged : Bool
  quality_scores : Option QualityScores
deriving DecidableEq, Repr

/-- The JSON body of the handler's HTTP reply: an error object, a cache
hit (the stored payload spread together with `cached: True` and
`cache_age_seconds`), or a freshly computed `response_data`. -/
inductive HBody
  | err (msg : String)
  | hit (data : ResponseData) (cache_age_seconds : Nat)
  | ok (data : ResponseData)
deriving DecidableEq, Repr

/-- The environment fixing every collaborator answer for one request. -/
structure Env where
  /-- the governance handler imported and initialized (`app.py` 54-64) -/
  governance : Bool
  /-- the `GUARDRAIL_ID` environment variable is set -/
  guardrailId : Bool
  /-- verdict of `governance.check_content_safety` on the query -/
  inputSafe : Bool
  /-- verdict of the PII detection on the query -/
  hasPII : Bool
  /-- redacted text produced by `detect_and_redact_pii` -/
  redactedText : String
  /-- conversation history returned by `get_conversation_history` -/
  history : List ConversationTurn
  /-- the md5 digest used for cache keys -/
  hash : String → String
  /-- state of the cache portion of the conversation table -/
  store : String → Option (CacheEntry ResponseData)
  /-- the `time.time()` clock during this request -/
  now : Nat
  /-- chunks returned by `retrieve_relevant_chunks` (empty on search failure) -/
  chunks : List ContextChunk
  /-- outcome of `invoke_model` per tier: generated text, or a raised error -/
  attempt : Tier → Except Unit String
  /-- verdict of `governance.validate_response_safety` per candidate response -/
  outputSafe : String → Bool
  /-- the quality evaluator imported and initialized (`app.py` 66-76) -/
  qualityOn : Bool
  /-- `count_tokens(construct_prompt(...))` for this request -/
  promptTokens : Nat
  /-- `count_tokens` on the final response text -/
  countTokens : String → Nat
  /-- measured invocation latency -/
  latency : ℚ
  /-- the generated request UUID -/
  requestId : String

/-- The handler's outcome: HTTP status, reply body, the executed trace
and the cache store after the request. -/
structure HResult where
  status : Nat
  body : HBody
  trace : List Step
  store : String → Option (CacheEntry ResponseData)

/-- `handler(event, context)` (`app.py` 115-351) on a non-feedback,
non-streaming request carrying `query` and `conversation_id`.
The `cache_age_seconds` of a hit is 0: the stored payload has no
`cached_at` key, so `cached_response.get('cached_at', time.time())`
falls back to the current time. -/
def handler (env : Env) (query conversation_id : String) : HResult :=
  if query = "" then
    { status := 400, body := .err "Missing query parameter", trace := [], store := env.store }
  else
    let preTrace : List Step :=
      if env.governance && env.guardrailId then [.safetyIn query] else []
    if env.governance && env.guardrailId && !env.inputSafe then
      { status := 400, body := .err "Content blocked by safety guardrails",
        trace := preTrace, store := env.store }
    else
      let query_for_processing :=
        if env.governance && env.hasPII then env.redactedText else query
      let trace1 := preTrace ++ [.piiDetect query, .historyFetch, .cacheLookup query]
      match get_cached_response env.hash env.store env.now query with
      | some cached_data =>
        { status := 200, body := .hit cached_data 0, trace := trace1, store := env.store }
      | none =>
        let sel := select_model_tier query env.history
        let model_config := models sel.1
        let relevant_chunks := rerank_chunks query env.chunks 5
        let trace2 := trace1 ++
          [.complexityStep, .retrieveStep query_for_processing, .rerankStep,
           .promptAssemble, .modelInvoke sel.1]
        match invoke_model_with_fallback env.attempt sel.1 with
        | none =>
          { status := 500, body := .err "Internal server error",
            trace := trace2, store := env.store }
        | some raw_response =>
          let blocked := env.governance && env.guardrailId && !(env.outputSafe raw_response)
          let response := if blocked then safeResponseMessage else raw_response
          let trace3 := trace2 ++
            (if env.governance && env.guardrailId then [.safetyOut raw_response] else []) ++
            (if blocked then [.auditResponseBlocked] else [])
          let response_tokens := env.countTokens response
          let data : ResponseData :=
            { request_id := env.requestId
              conversation_id := conversation_id
              response := response
              model := model_config.id
              model_tier := sel.1
              complexity_score := sel.2
              latency := env.latency
              prompt_tokens := env.promptTokens
              response_tokens := response_tokens
              cost := calculate_cost env.promptTokens response_tokens model_config
              has_pii := env.hasPII
              pii_redacted := env.hasPII
              sources := relevant_chunks.map (fun c => (c.document_id, c.score))
              cached := false
              guardrails_applied := env.guardrailId
              pii_detected := env.hasPII
              audit_logged := env.governance
              quality_scores :=
                if env.qualityOn then
                  some (evaluate_response_quality query response relevant_chunks)
                else none }
          let trace4 := trace3 ++
            [.storeConv query response, .logMetrics, .storeEval] ++
            (if env.qualityOn then [.qualityEval query response] else []) ++
            (if env.governance then [.auditQuery] else []) ++
            [.cacheWrite query]
          { status := 200, body := .ok data, trace := trace4,
            store := cache_response env.hash env.store env.now query data }

/-! ## Pattern guardrails — `guardrails_manager.py` and
`lambda_capture_query.py` of `01_1.5_customer_support_ai_assistant`

The five `_load_sensitive_patterns` regexes and the blocked-topic
keyword lists are embedded as decidable matchers over character lists.
Each matcher tries the pattern at every start position (`re.search`).
The `\s`, `\w` and letter classes are read as their ASCII meaning,
which agrees with Python on every string the repository handles. -/

def isSpaceC (c : Char) : Bool := c.isWhitespace

/-- The character class `[0-9A-Z]` of the AWS-access-key pattern. -/
def upperAlnum (c : Char) : Bool := c.isDigit || c.isUpper

/-- Does the pattern succeed at some start position (`re.search`)? -/
def anySuffix (p : List Char → Bool) : List Char → Bool
  | [] => p []
  | c :: cs => p (c :: cs) || anySuffix p cs

/-- `re.search` for patterns with a leading `\b`: the matcher also
sees the character preceding the start position (`none` at the start
of the string). -/
def searchPrev (p : Option Char → List Char → Bool) : Option Char → List Char → Bool
  | prev, [] => p prev []
  | prev, c :: cs => p prev (c :: cs) || searchPrev p (some c) cs

/-- A `\b` boundary holds before a word character exactly when the
previous character is absent or not a word character. -/
def boundaryBefore (prev : Option Char) : Bool :=
  match prev with
  | none => true
  | some c => !isWordChar c

/-- `AKIA[0-9A-Z]{16}` at the current position. -/
def akiaMatchAt : List Char → Bool
  | 'A' :: 'K' :: 'I' :: 'A' :: rest =>
    ((rest.take 16).length = 16) && (rest.take 16).all upperAlnum
  | _ => false

/-- The `AWS Access Key` pattern `AKIA[0-9A-Z]{16}`
(`guardrails_manager.py` 51-55); no `IGNORECASE` flag. -/
def matchesAWSAccessKey (text : String) : Bool :=
  anySuffix akiaMatchAt text.toList

/-- The character class `[A-Za-z0-9/+=]` of the secret-key pattern. -/
def secretChar (c : Char) : Bool :=
  c.isAlpha || c.isDigit || c = '/' || c = '+' || c = '='

/-- The `AWS Secret Key` pattern `[A-Za-z0-9/+=]{40}`
(`guardrails_manager.py` 56-61); the `context_required` marker is
ignored by `validate_input`, which applies the pattern directly. -/
def matchesSecretKey (text : String) : Bool :=
  anySuffix (fun cs => ((cs.take 40).length = 40) && (cs.take 40).all secretChar) text.toList

/-- `\s*[:=]\s*\S+` — whitespace, a separator, whitespace, then at
least one non-space character. -/
def sepThenValue (cs : List Char) : Bool :=
  match cs.dropWhile isSpaceC with
  | c :: cs2 => (c = ':' || c = '=') && (cs2.dropWhile isSpaceC) ≠ []
  | [] => false

/-- The `Password` pattern `\b(password|passwd|pwd)\s*[:=]\s*\S+` with
`IGNORECASE` (`guardrails_manager.py` 62-67): run on the lowercased
text, trying each alternative of the keyword group. -/
def matchesPassword (text : String) : Bool :=
  searchPrev
    (fun prev cs =>
      boundaryBefore prev &&
      ["password", "passwd", "pwd"].any
        (fun kw => kw.toList.isPrefixOf cs && sepThenValue (cs.drop kw.length)))
    none (lowerStr text).data

/-- `\s+`: consume at least one whitespace character, then the rest of
the run (greedy, exact here since every continuation starts with a
non-space character). -/
def wsPlus (cs : List Char) : Option (List Char) :=
  match cs with
  | c :: rest => if isSpaceC c then some (rest.dropWhile isSpaceC) else none
  | [] => none

/-- `PRIVATE\s+KEY-----`, the common tail of the private-key pattern. -/
def privateTail (cs : List Char) : Bool :=
  "PRIVATE".toList.isPrefixOf cs &&
  (match wsPlus (cs.drop 7) with
   | some cs2 => "KEY-----".toList.isPrefixOf cs2
   | none => false)

/-- The `Private Key` pattern
`-----BEGIN\s+(?:RSA\s+)?PRIVATE\s+KEY-----`
(`guardrails_manager.py` 68-72), case-sensitive; both alternatives of
the optional `RSA` group are tried. -/
def matchesPrivateKey (text : String) : Bool :=
  anySuffix
    (fun cs =>
      "-----BEGIN".toList.isPrefixOf cs &&
      (match wsPlus (cs.drop 10) with
       | some cs1 =>
         ("RSA".toList.isPrefixOf cs1 &&
           (match wsPlus (cs1.drop 3) with
            | some cs2 => privateTail cs2
            | none => false)) ||
         privateTail cs1
       | none => false))
    text.toList

/-- The class `[A-Za-z0-9_\-]` under `IGNORECASE` on lowercased text. -/
def apiKeyChar (c : Char) : Bool :=
  c.isLower || c.isDigit || c = '_' || c = '-'

/-- `\s*[:=]\s*["\']?[A-Za-z0-9_\-]{20,}` on lowercased text. -/
def apiKeyRest (cs : List Char) : Bool :=
  match cs.dropWhile isSpaceC with
  | c :: cs2 =>
    (c = ':' || c = '=') &&
    (let cs3 := cs2.dropWhile isSpaceC
     let cs4 :=
       match cs3 with
       | d :: rest => if d = '"' || d = '\'' then rest else cs3
       | [] => cs3
     (cs4.takeWhile apiKeyChar).length ≥ 20)
  | [] => false

/-- The `API Key` pattern
`\b(api[_-]?key|apikey)\s*[:=]\s*["\']?[A-Za-z0-9_\-]{20,}` with
`IGNORECASE` (`guardrails_manager.py` 73-78); the keyword group
expands to the three spellings tried below. -/
def matchesAPIKey (text : String) : Bool :=
  searchPrev
    (fun prev cs =>
      boundaryBefore prev &&
      ["api_key", "api-key", "apikey"].any
        (fun kw => kw.toList.isPrefixOf cs && apiKeyRest (cs.drop kw.length)))
    none (lowerStr text).data

/-- One `_load_blocked_topics` entry (`guardrails_manager.py` 81-122). -/
structure BlockedTopic where
  topic : String
  keywords : List String
  response : String
deriving DecidableEq, Repr

/-- The `_load_blocked_topics` table (`guardrails_manager.py` 81-122). -/
def blocked_topics : List BlockedTopic :=
  [{ topic := "future_features",
     keywords := ["roadmap", "upcoming", "will be released", "future release",
                  "planning to launch", "next version", "soon", "future plans"],
     response := "I cannot make commitments or discuss specific future AWS features or roadmap items. I recommend checking the AWS What's New blog (https://aws.amazon.com/new/) and AWS re:Invent announcements for information about new services and features." },
   { topic := "account_credentials",
     keywords := ["access key", "secret key", "password", "credentials",
                  "login info", "authentication token"],
     response := "I cannot provide, request, or handle AWS account credentials. Please never share your access keys, passwords, or other credentials in this chat. If you've accidentally exposed credentials, please rotate them immediately through the AWS Console." },
   { topic := "direct_account_modification",
     keywords := ["delete my", "modify my account", "change my billing",
                  "cancel my subscription", "close my account"],
     response := "I cannot directly modify AWS accounts or resources. For account changes, billing modifications, or account closure, please use the AWS Console or contact AWS Support directly through your support plan." }]

/-- `GuardrailsManager.validate_input(text)`
(`guardrails_manager.py` 144-175): collect one issue per matching
sensitive pattern (in table order), then one issue per blocked topic
with a keyword in the lowercased text; safe iff no issues. -/
def validate_input (text : String) : Bool × List String :=
  let patternIssues :=
    (if matchesAWSAccessKey text then ["Detected AWS Access Key: AWS Access Key ID"] else []) ++
    (if matchesSecretKey text then
      ["Detected AWS Secret Key: Potential AWS Secret Access Key"] else []) ++
    (if matchesPassword text then ["Detected Password: Password in plain text"] else []) ++
    (if matchesPrivateKey text then ["Detected Private Key: Private key material"] else []) ++
    (if matchesAPIKey text then ["Detected API Key: Generic API key"] else [])
  let text_lower := lowerStr text
  let issues := blocked_topics.foldl
    (fun acc topic =>
      if topic.keywords.any (fun kw => containsSub text_lower kw) then
        acc ++ ["Blocked topic detected: " ++ topic.topic]
      else acc)
    patternIssues
  (issues.isEmpty, issues)

/-- The credentials safe response of `_generate_safe_response`
(`guardrails_manager.py` 272-283). -/
def credentialsSafeMessage : String :=
  "I noticed your message may contain sensitive credentials. Please never share AWS access keys, secret keys, passwords, or other credentials in this chat. If you've accidentally exposed credentials, please rotate them immediately through the AWS Console. I'm here to help with your technical question - could you rephrase without including sensitive information?"

/-- The output-issue safe response of `_generate_safe_response`
(`guardrails_manager.py` 290-296). -/
def outputRefineMessage : String :=
  "I apologize, but I need to refine my response to ensure it meets our guidelines. Let me provide you with accurate information about AWS services and how they can help with your needs. Could you provide more details about your specific use case or issue?"

/-- The generic safe response of `_generate_safe_response`
(`guardrails_manager.py` 298-301). -/
def genericSafeMessage : String :=
  "I want to make sure I provide safe and accurate information. Could you please rephrase your question or provide more context?"

/-- `GuardrailsManager._generate_safe_response(input_issues,
output_issues)` (`guardrails_manager.py` 265-301). -/
def generate_safe_response (input_issues output_issues : List String) : String :=
  let fromInput : Option String :=
    if input_issues.length = 0 then none
    else if input_issues.any (fun issue =>
        containsSub (lowerStr issue) "credentials" || containsSub (lowerStr issue) "key") then
      some credentialsSafeMessage
    else
      (blocked_topics.find? (fun t =>
        input_issues.any (fun issue => containsSub (lowerStr issue) t.topic))).map (·.response)
  match fromInput with
  | some r => r
  | none => if output_issues.length ≠ 0 then outputRefineMessage else genericSafeMessage

/-- The observable outcome of `lambda_capture_query.lambda_handler`. -/
structure CaptureResult where
  statusCode : Nat
  guardrail_triggered : Bool
  skip_processing : Bool
  response : Option String
deriving DecidableEq, Repr

/-- `lambda_capture_query.lambda_handler` (`lambda_capture_query.py`
34-132) on a new-session request: empty or blank queries are rejected,
an unsafe query returns the safe substitute with
`skip_processing = True` (so the downstream inference steps never run
on it), and a safe query proceeds with `skip_processing = False`.
The session store round trips are plumbing and are omitted. -/
def lambda_capture_query (query : String) : CaptureResult :=
  if query = "" || pyTrim query = "" then
    { statusCode := 400, guardrail_triggered := false, skip_processing := false,
      response := none }
  else
    let v := validate_input query
    if !v.1 then
      { statusCode := 200, guardrail_triggered := true, skip_processing := true,
        response := some (generate_safe_response v.2 []) }
    else
      { statusCode := 200, guardrail_triggered := false, skip_processing := false,
        response := none }

/-! ## Concrete scenario environments

Shared concrete instances used to evaluate the pipeline at specific
inputs. -/

/-- A per-tier outcome oracle: the advanced model call raises, the two
lower tiers succeed. -/
def attemptAdvFails : Tier → Except Unit String
  | .advanced => .error ()
  | .standard => .ok "standard tier answer"
  | .simple => .ok "simple tier answer"

/-- A query whose complexity score is 75 (≥ 60), so the selector picks
the advanced tier. -/
def hiComplexityQuery : String :=
  "why compare analyze explain trade-offs first architecture security optimization implementation"

/-- The `model_tier` recorded in a reply body, if any. -/
def bodyModelTier : HBody → Option Tier
  | .ok d => some d.model_tier
  | .hit d _ => some d.model_tier
  | .err _ => none

/-- The response text carried by a reply body, if any. -/
def bodyResponse : HBody → Option String
  | .ok d => some d.response
  | .hit d _ => some d.response
  | .err _ => none

/-- Baseline single-request environment: no governance handler, empty
store, empty history, no retrieved chunks, `attemptAdvFails` as the
model oracle. -/
def baseEnv : Env :=
  { governance := false, guardrailId := false, inputSafe := true, hasPII := false,
    redactedText := "", history := [], hash := id, store := fun _ => none, now := 0,
    chunks := [], attempt := attemptAdvFails, outputSafe := fun _ => true, qualityOn := false,
    promptTokens := 0, countTokens := fun _ => 0, latency := 0, requestId := "req-1" }

/-- A context chunk whose search score is 2 (hybrid OpenSearch scores
are not bounded by 1). -/
def highScoreChunk : ContextChunk :=
  { text := "t", document_id := "d", chunk_id := "c", score := 2 }

/-- A stored response payload for the cache-hit scenario. -/
def cachedPayload : ResponseData :=
  { request_id := "req-0", conversation_id := "conv-0", response := "cached answer",
    model := (models .simple).id, model_tier := .simple, complexity_score := 10,
    latency := 0, prompt_tokens := 0, response_tokens := 0, cost := 0,
    has_pii := false, pii_redacted := false, sources := [], cached := false,
    guardrails_applied := true, pii_detected := false, audit_logged := true,
    quality_scores := none }

/-- Environment with the guardrail configured, a safe input, and a
fresh cache entry for the query `"hello"`. -/
def envHit : Env :=
  { baseEnv with
    governance := true
    guardrailId := true
    store := cache_response id (fun _ => none) 0 "hello" cachedPayload }

/-- Environment with the guardrail configured and an input the safety
classifier rejects. -/
def envBlockedInput : Env :=
  { baseEnv with
    governance := true
    guardrailId := true
    inputSafe := false }

/-- Environment with the guardrail configured whose output classifier
rejects every candidate response. -/
def envBlockedOutput : Env :=
  { baseEnv with
    governance := true
    guardrailId := true
    outputSafe := fun _ => false }

/-! ## Spec-side reference formulas -/

/-- The Complexity Scorer algorithm as the specification words it
(§4.1 / C6): the word-count bucket bonus (5/10/15/20), 3 points per
prior turn capped at 15, 5 points per complexity keyword family
present, 5 points per technical-domain family present, the bonus of
the first matching leading question word, clamped at 100.  Stated from
the spec's words, to be compared with the source translation
`analyze_query_complexity`. -/
def specComplexityScore (query : String) (history_length : Nat) : Nat :=
  let ql := lowerStr query
  let wc := (pySplit query).length
  let lengthPoints := if wc < 5 then 5 else if wc < 10 then 10 else if wc < 20 then 15 else 20
  let depthPoints := min (history_length * 3) 15
  let indicatorPoints :=
    5 * ((complex_indicators.filter (fun cat => cat.2.any (fun kw => containsSub ql kw))).length)
  let technicalPoints :=
    5 * ((technical_domains.filter (fun dom => dom.2.any (fun kw => containsSub ql kw))).length)
  let questionPoints :=
    match question_types.find? (fun qt => qt.1.data.isPrefixOf ql.data) with
    | some qt => qt.2
    | none => 0
  min (lengthPoints + depthPoints + indicatorPoints + technicalPoints + questionPoints) 100

/-! ## Theorems -/

/-- The score component of a keyword-family fold of
`analyze_query_complexity`: the fold adds 5 points per family whose
keyword list has a hit in the lowercased query. -/
theorem family_foldl_fst (ql tag : String) :
    ∀ (l : List (String × List String)) (a : Nat × List String),
      (l.foldl
        (fun acc cat =>
          if cat.2.any (fun kw => containsSub ql kw) then
            (acc.1 + 5, acc.2 ++ [tag ++ cat.1])
          else acc) a).1 =
      a.1 + 5 * ((l.filter (fun cat => cat.2.any (fun kw => containsSub ql kw))).length) := by
  intro l
  induction l with
  | nil => intro a; simp
  | cons x xs ih =>
    intro a
    by_cases h : x.2.any (fun kw => containsSub ql kw)
    · simp only [List.foldl_cons, List.filter_cons, h, if_pos, ih]
      simp only [List.length_cons]
      omega
    · simp only [List.foldl_cons, List.filter_cons, h, ih]
      simp

/-- C6: the complexity scorer returns exactly the spec's clamped sum
(word-count bucket + capped conversation depth + 5 points per keyword
family + 5 points per technical family + first-question-word bonus)
and its score always lies in [0, 100].  Determinism/purity is
definitional: the embedding is a function of `(text, history)` alone. -/
theorem complexity_scorer_matches_spec_and_bounded (query : String)
    (conversation_history : List ConversationTurn) :
    (analyze_query_complexity query conversation_history).1 =
      specComplexityScore query conversation_history.length ∧
    (analyze_query_complexity query conversation_history).1 ≤ 100 := by
  have heq : (analyze_query_complexity query conversation_history).1 =
      specComplexityScore query conversation_history.length := by
    simp only [analyze_query_complexity, specComplexityScore]
    rcases hq : question_types.find? (fun qt => qt.1.data.isPrefixOf (lowerStr query).data) with
      _ | qt
    · simp only [hq]
      rw [family_foldl_fst, family_foldl_fst]
      split_ifs <;> simp
    · simp only [hq]
      rw [family_foldl_fst, family_foldl_fst]
      split_ifs <;> simp
  refine ⟨heq, ?_⟩
  rw [heq]
  simp only [specComplexityScore]
  exact min_le_right _ _

/-- C1: for every selected tier and per-tier outcome oracle, the
fallback invoker returns some text — the loop never falls through (no
`None`, no escaping exception, since every raise of `invoke_model` is
caught inside the loop) — and if every tier of the chain fails, the
returned text is exactly the fixed apology message. -/
theorem fallback_always_returns_text_and_apology_on_exhaustion
    (attempt : Tier → Except Unit String) (model_tier : Tier) :
    (invoke_model_with_fallback attempt model_tier).isSome = true ∧
    ((∀ t ∈ fallback_chain model_tier, attempt t = .error ()) →
      invoke_model_with_fallback attempt model_tier = some apologyMessage) := by
  cases model_tier <;>
    simp only [invoke_model_with_fallback, fallbackRun, fallback_chain, List.mem_cons,
      List.not_mem_nil, or_false, forall_eq_or_imp, forall_eq]
  case simple =>
    rcases h1 : attempt .simple with u | r <;>
      simp [fallbackLoop, h1]
  case standard =>
    rcases h1 : attempt .standard with u | r <;>
      rcases h2 : attempt .simple with u' | r' <;>
        simp [fallbackLoop, h1, h2]
  case advanced =>
    rcases h1 : attempt .advanced with u | r <;>
      rcases h2 : attempt .standard with u' | r' <;>
        rcases h3 : attempt .simple with u'' | r'' <;>
          simp [fallbackLoop, h1, h2, h3]

/-- Witness for C1 at a concrete oracle on which every tier fails. -/
theorem fallback_always_returns_text_witness :
    (∀ t ∈ fallback_chain .advanced, (fun _ : Tier => (.error () : Except Unit String)) t = .error ()) ∧
    invoke_model_with_fallback (fun _ => .error ()) .advanced = some apologyMessage := by
  refine ⟨fun t _ => rfl, ?_⟩
  exact (fallback_always_returns_text_and_apology_on_exhaustion
    (fun _ => .error ()) .advanced).2 (fun t _ => rfl)

/-- C2 counterexample: with the advanced tier selected (score 75) and
an oracle on which the advanced call fails and the standard call
succeeds, the fallback invoker uses the standard tier (`tierUsed`,
exactly what the source's `Fallback successful` log reports), yet the
value returned to the caller is only the text, and the handler's
recorded result still carries `model_tier = advanced` — the claim that
the invocation result records `tier_used = T′` (and a
`fallback_occurred` flag) is false on this input. -/
theorem tier_used_not_recorded_counterexample :
    select_model_tier hiComplexityQuery [] = (.advanced, 75) ∧
    attemptAdvFails .advanced = .error () ∧
    attemptAdvFails .standard = .ok "standard tier answer" ∧
    invoke_model_with_fallback attemptAdvFails .advanced = some "standard tier answer" ∧
    tierUsed attemptAdvFails .advanced = some .standard ∧
    bodyModelTier (handler baseEnv hiComplexityQuery "conv-1").body = some .advanced ∧
    Tier.advanced ≠ Tier.standard := by
  exact ⟨by decide, rfl, rfl, by decide, by decide, by decide, by decide⟩

/-- C2 amended: if the originally selected tier fails and the next
tier in its chain succeeds, the invocation returns that next tier's
text and the tier actually used (as logged) is the next tier; the tier
used is always a member of the configured fallback chain of the
selected tier; but the result returned to the caller records no
`tier_used`/`fallback_occurred` — the handler's `response_data` keeps
`model_tier` equal to the originally selected tier. -/
theorem fallback_next_tier_used_amended (attempt : Tier → Except Unit String) (r : String)
    (env : Env) (query conversation_id : String) :
    (attempt .advanced = .error () → attempt .standard = .ok r →
      fallbackRun attempt .advanced = some (r, some .standard)) ∧
    (attempt .standard = .error () → attempt .simple = .ok r →
      fallbackRun attempt .standard = some (r, some .simple)) ∧
    (∀ model_tier t, tierUsed attempt model_tier = some t → t ∈ fallback_chain model_tier) ∧
    (∀ d, (handler env query conversation_id).body = .ok d →
      d.model_tier = (select_model_tier query env.history).1) := by
  refine ⟨?_, ?_, ?_, ?_⟩
  · intro h1 h2
    simp [fallbackRun, fallback_chain, fallbackLoop, h1, h2, List.getLast?]
  · intro h1 h2
    simp [fallbackRun, fallback_chain, fallbackLoop, h1, h2, List.getLast?]
  · intro model_tier t ht
    cases model_tier
    case simple =>
      rcases ha : attempt .simple with u | r' <;>
        simp [tierUsed, fallbackRun, fallback_chain, fallbackLoop, ha, List.getLast?] at ht <;>
        simp [<- ht, fallback_chain]
    case standard =>
      rcases ha : attempt .standard with u | r' <;>
        rcases hb : attempt .simple with u' | r'' <;>
        simp [tierUsed, fallbackRun, fallback_chain, fallbackLoop, ha, hb, List.getLast?] at ht <;>
        simp [<- ht, fallback_chain]
    case advanced =>
      rcases ha : attempt .advanced with u | r' <;>
        rcases hb : attempt .standard with u' | r'' <;>
        rcases hc : attempt .simple with u'' | r''' <;>
        simp [tierUsed, fallbackRun, fallback_chain, fallbackLoop, ha, hb, hc, List.getLast?] at ht <;>
        simp [<- ht, fallback_chain]
  · intro d hd
    by_cases h1 : query = ""
    · simp [handler, h1] at hd
    · by_cases h2 : env.governance && env.guardrailId && !env.inputSafe
      · simp [handler, h1, h2] at hd
      · rcases hc : get_cached_response env.hash env.store env.now query with _ | cd
        · rcases hi : invoke_model_with_fallback env.attempt
              (select_model_tier query env.history).1 with _ | resp
          · simp [handler, h1, h2, hc, hi] at hd
          · simp only [handler, h1, h2, hc, hi] at hd
            have hd2 : HBody.ok _ = HBody.ok d := hd
            rw [HBody.ok.injEq] at hd2
            subst hd2
            rfl
        · simp [handler, h1, h2, hc] at hd

/-- Witness for C2 amended, discharging its hypotheses at the concrete
failing-advanced oracle. -/
theorem fallback_next_tier_used_amended_witness :
    attemptAdvFails .advanced = .error () ∧
    attemptAdvFails .standard = .ok "standard tier answer" ∧
    fallbackRun attemptAdvFails .advanced = some ("standard tier answer", some .standard) := by
  refine ⟨rfl, rfl, ?_⟩
  exact (fallback_next_tier_used_amended attemptAdvFails "standard tier answer"
    baseEnv "q" "c").1 rfl rfl

/-- C7: the tier selector returns the pair of the threshold-mapped
tier and the complexity score itself; the thresholds are `≥ 60 →`
highest, `30 ≤ · < 60 →` mid, `< 30 →` lowest; and the score-to-tier
map is monotone non-decreasing for the order
`simple < standard < advanced`.  (The selector is a pure function of
its arguments — it performs no I/O in the source beyond a log print.) -/
theorem tier_selector_thresholds_and_monotone (query : String)
    (conversation_history : List ConversationTurn) (s s' : Nat) :
    select_model_tier query conversation_history =
      (tierOfScore (analyze_query_complexity query conversation_history).1,
        (analyze_query_complexity query conversation_history).1) ∧
    (60 ≤ s → tierOfScore s = .advanced) ∧
    (30 ≤ s → s < 60 → tierOfScore s = .standard) ∧
    (s < 30 → tierOfScore s = .simple) ∧
    (s ≤ s' → tierRank (tierOfScore s) ≤ tierRank (tierOfScore s')) := by
  refine ⟨rfl, ?_, ?_, ?_, ?_⟩
  · intro h; simp [tierOfScore, h]
  · intro h1 h2
    unfold tierOfScore
    split_ifs with ha
    · exact absurd ha (by omega)
    · rfl
  · intro h
    unfold tierOfScore
    split_ifs with ha hb
    · exact absurd ha (by omega)
    · exact absurd hb (by omega)
    · rfl
  · intro h
    unfold tierOfScore
    split_ifs <;> simp [tierRank] <;> omega

/-- Witness for C7 at score 45 (mid band) against score 60. -/
theorem tier_selector_thresholds_witness :
    30 ≤ 45 ∧ 45 < 60 ∧ tierOfScore 45 = .standard ∧
    (45 ≤ 60 ∧ tierRank (tierOfScore 45) ≤ tierRank (tierOfScore 60)) := by
  refine ⟨by decide, by decide, ?_, by decide, ?_⟩
  · exact (tier_selector_thresholds_and_monotone "" [] 45 60).2.2.1 (by decide) (by decide)
  · exact (tier_selector_thresholds_and_monotone "" [] 45 60).2.2.2.2 (by decide)

/-- C8: writing a response and immediately reading with a query of the
same normalization returns exactly the stored payload; a read at least
`ttl_seconds = 3600` after the write misses; and any entry that is
expired at read time is treated as absent — its payload is never
returned. -/
theorem cache_write_read_roundtrip_and_ttl_expiry {α : Type}
    (hash : String → String) (store : String → Option (CacheEntry α))
    (now now' : Nat) (query query' : String) (payload : α) :
    (pyTrim (lowerStr query') = pyTrim (lowerStr query) →
      get_cached_response hash (cache_response hash store now query payload) now query' =
        some payload) ∧
    (pyTrim (lowerStr query') = pyTrim (lowerStr query) → now + CACHE_TTL_SECONDS ≤ now' →
      get_cached_response hash (cache_response hash store now query payload) now' query' =
        none) ∧
    (∀ item, store (cacheKey hash query) = some item →
      CACHE_TTL_SECONDS ≤ now - item.cached_at →
      get_cached_response hash store now query = none) := by
  refine ⟨?_, ?_, ?_⟩
  · intro hnorm
    have hkey : cacheKey hash query' = cacheKey hash query := by
      simp [cacheKey, hnorm]
    simp [get_cached_response, cache_response, hkey, CACHE_TTL_SECONDS]
  · intro hnorm hlate
    have hkey : cacheKey hash query' = cacheKey hash query := by
      simp [cacheKey, hnorm]
    have hcond : ¬ (now' - now < CACHE_TTL_SECONDS) := by
      simp only [CACHE_TTL_SECONDS] at hlate ⊢
      omega
    simp [get_cached_response, cache_response, hkey, hcond]
  · intro item hitem hexp
    have hcond : ¬ (now - item.cached_at < CACHE_TTL_SECONDS) := by
      simp only [CACHE_TTL_SECONDS] at hexp ⊢
      omega
    simp [get_cached_response, hitem, hcond]

/-- Witness for C8: a concrete write at time 0 read back at time 0 and
missed at time 3600. -/
theorem cache_write_read_roundtrip_witness :
    (pyTrim (lowerStr " Hello ") = pyTrim (lowerStr "hello")) ∧ (0 + CACHE_TTL_SECONDS ≤ 3600) ∧
    get_cached_response id (cache_response id (fun _ => none) 0 "hello" (37 : Nat)) 0 " Hello " =
      some 37 ∧
    get_cached_response id (cache_response id (fun _ => none) 0 "hello" (37 : Nat)) 3600 " Hello " =
      none := by
  refine ⟨by decide, by decide, ?_, ?_⟩
  · exact (cache_write_read_roundtrip_and_ttl_expiry id (fun _ => none) 0 3600 "hello"
      " Hello " 37).1 (by decide)
  · exact (cache_write_read_roundtrip_and_ttl_expiry id (fun _ => none) 0 3600 "hello"
      " Hello " 37).2.1 (by decide) (by decide)

/-- Clamping a nonnegative rational at 1 lands in [0, 1]. -/
theorem clamp01 (x : ℚ) (hx : 0 ≤ x) : 0 ≤ min x 1 ∧ min x 1 ≤ 1 :=
  ⟨le_min hx (by norm_num), min_le_right x 1⟩

/-- An if-then-else of values in [0, 1] is in [0, 1]. -/
theorem ite_bounds {c : Prop} [Decidable c] {a b : ℚ}
    (ha : 0 ≤ a ∧ a ≤ 1) (hb : 0 ≤ b ∧ b ≤ 1) :
    0 ≤ (if c then a else b) ∧ (if c then a else b) ≤ 1 := by
  by_cases h : c
  · simpa [h] using ha
  · simpa [h] using hb

/-- An if-then-else of nonnegative values is nonnegative. -/
theorem ite_nonneg {c : Prop} [Decidable c] {a b : ℚ} (ha : 0 ≤ a) (hb : 0 ≤ b) :
    0 ≤ (if c then a else b) := by
  by_cases h : c
  · simpa [h] using ha
  · simpa [h] using hb

/-- The relevance dimension is clamped into [0, 1] by construction. -/
theorem relevanceScore_bounds (query response : String) (chunks : List ContextChunk) :
    0 ≤ relevanceScore query response chunks ∧ relevanceScore query response chunks ≤ 1 := by
  unfold relevanceScore
  exact ite_bounds (by norm_num)
    ⟨le_min (le_max_right _ 0) (by norm_num), min_le_right _ 1⟩

/-- The coherence dimension lies in [0, 1]: every additive credit is
nonnegative and the sum is capped at 1. -/
theorem coherenceScore_bounds (response : String) :
    0 ≤ coherenceScore response ∧ coherenceScore response ≤ 1 := by
  unfold coherenceScore
  refine ite_bounds (by norm_num) (clamp01 _ ?_)
  refine add_nonneg (add_nonneg (add_nonneg ?_ ?_) ?_) ?_
  · exact ite_nonneg (by norm_num) (ite_nonneg (by norm_num) le_rfl)
  · exact ite_nonneg (by norm_num) le_rfl
  · exact ite_nonneg (ite_nonneg (by norm_num) (ite_nonneg (by norm_num) le_rfl)) le_rfl
  · exact ite_nonneg (by norm_num) le_rfl

/-- The completeness dimension lies in [0, 1]. -/
theorem completenessScore_bounds (query response : String) :
    0 ≤ completenessScore query response ∧ completenessScore query response ≤ 1 := by
  unfold completenessScore
  refine clamp01 _ ?_
  refine add_nonneg (add_nonneg (add_nonneg ?_ ?_) ?_) ?_
  · exact ite_nonneg (by norm_num)
      (ite_nonneg (by norm_num) (ite_nonneg (by norm_num) (by norm_num)))
  · exact ite_nonneg (by norm_num) le_rfl
  · exact ite_nonneg (by norm_num) le_rfl
  · exact ite_nonneg (by norm_num) le_rfl

/-- Provided every chunk score lies in [0, 1], the accuracy dimension
(the mean chunk score, possibly with the capped +0.1 bonus) lies in
[0, 1]. -/
theorem accuracyScore_bounds (chunks : List ContextChunk)
    (h : ∀ c ∈ chunks, 0 ≤ c.score ∧ c.score ≤ 1) :
    0 ≤ accuracyScore chunks ∧ accuracyScore chunks ≤ 1 := by
  unfold accuracyScore
  by_cases h0 : chunks.length = 0
  · rw [if_pos h0]
    norm_num
  · rw [if_neg h0]
    have hlen : (0 : ℚ) < (chunks.length : ℚ) := by
      exact_mod_cast Nat.pos_of_ne_zero h0
    have hsum0 : 0 ≤ (chunks.map (·.score)).sum := by
      refine List.sum_nonneg ?_
      intro x hx
      obtain ⟨c, hc, rfl⟩ := List.mem_map.1 hx
      exact (h c hc).1
    have hsum1 : (chunks.map (·.score)).sum ≤ (chunks.length : ℚ) := by
      have hle := List.sum_le_card_nsmul (chunks.map (·.score)) 1 ?_
      · simpa [nsmul_eq_mul] using hle
      · intro x hx
        obtain ⟨c, hc, rfl⟩ := List.mem_map.1 hx
        exact (h c hc).2
    have havg0 : 0 ≤ (chunks.map (·.score)).sum / (chunks.length : ℚ) :=
      div_nonneg hsum0 hlen.le
    have havg1 : (chunks.map (·.score)).sum / (chunks.length : ℚ) ≤ 1 :=
      (div_le_one hlen).2 hsum1
    exact ite_bounds (clamp01 _ (by linarith)) ⟨havg0, havg1⟩

/-- The conciseness dimension takes only the values 1, 0.8, 0.6, 0.4
and 0.3, all in [0, 1]. -/
theorem concisenessScore_bounds (response : String) :
    0 ≤ concisenessScore response ∧ concisenessScore response ≤ 1 := by
  unfold concisenessScore
  exact ite_bounds (by norm_num) (ite_bounds (by norm_num) (ite_bounds (by norm_num)
    (ite_bounds (by norm_num) (ite_bounds (by norm_num) (ite_bounds (by norm_num)
      (by norm_num))))))

/-- The groundedness dimension lies in [0, 1]: the keyword overlap is
the fraction of a filtered list over the full list, and the phrase
bonus is capped at 1. -/
theorem groundednessScore_bounds (response : String) (chunks : List ContextChunk) :
    0 ≤ groundednessScore response chunks ∧ groundednessScore response chunks ≤ 1 := by
  unfold groundednessScore
  by_cases h0 : chunks.length = 0
  · rw [if_pos h0]
    norm_num
  · rw [if_neg h0]
    by_cases h1 :
        ((((wordRuns (lowerStr response)).filter (fun w => w.length > 4)).dedup).length) = 0
    · rw [if_pos h1]
      norm_num
    · rw [if_neg h1]
      have hpos : (0 : ℚ) <
          (((((wordRuns (lowerStr response)).filter (fun w => w.length > 4)).dedup).length : ℚ)) := by
        exact_mod_cast Nat.pos_of_ne_zero h1
      have hov0 : 0 ≤
          ((((((wordRuns (lowerStr response)).filter (fun w => w.length > 4)).dedup).filter
            (fun w => (((wordRuns (lowerStr (pyJoin " " (chunks.map (·.text))))).filter
              (fun w => w.length > 4)).dedup).contains w)).length : ℚ)) /
          (((((wordRuns (lowerStr response)).filter (fun w => w.length > 4)).dedup).length : ℚ)) := by
        positivity
      have hov1 :
          ((((((wordRuns (lowerStr response)).filter (fun w => w.length > 4)).dedup).filter
            (fun w => (((wordRuns (lowerStr (pyJoin " " (chunks.map (·.text))))).filter
              (fun w => w.length > 4)).dedup).contains w)).length : ℚ)) /
          (((((wordRuns (lowerStr response)).filter (fun w => w.length > 4)).dedup).length : ℚ)) ≤ 1 := by
        rw [div_le_one hpos]
        exact_mod_cast List.length_filter_le _ _
      exact ite_bounds (clamp01 _ (by linarith)) ⟨hov0, hov1⟩

/-- C5 counterexample: on a chunk list whose (hybrid-search) score is
2, the accuracy dimension returned by the quality evaluator equals 2 —
outside [0, 1] — because the mean chunk score is not clamped when
fewer than three chunks exceed 0.8. -/
theorem quality_accuracy_exceeds_one_counterexample :
    (evaluate_response_quality "what is this" "an answer" [highScoreChunk]).accuracy = 2 ∧
    ¬ ((evaluate_response_quality "what is this" "an answer" [highScoreChunk]).accuracy ≤ 1) := by
  have h2 : (evaluate_response_quality "what is this" "an answer" [highScoreChunk]).accuracy
      = 2 := by
    show accuracyScore [highScoreChunk] = 2
    simp [accuracyScore, highScoreChunk]
    norm_num
  exact ⟨h2, by rw [h2]; norm_num⟩

/-- C5 amended: provided every chunk score lies in [0, 1] (chunk
scores come from the external search service and are not clamped by
the evaluator), each of the six dimension scores lies in [0, 1]; the
overall score always equals the fixed-weight linear combination
0.25·relevance + 0.15·coherence + 0.20·completeness + 0.20·accuracy +
0.10·conciseness + 0.10·groundedness, and then also lies in [0, 1]. -/
theorem quality_scores_bounded_amended (query response : String) (chunks : List ContextChunk)
    (h : ∀ c ∈ chunks, 0 ≤ c.score ∧ c.score ≤ 1) :
    (0 ≤ (evaluate_response_quality query response chunks).relevance ∧
      (evaluate_response_quality query response chunks).relevance ≤ 1) ∧
    (0 ≤ (evaluate_response_quality query response chunks).coherence ∧
      (evaluate_response_quality query response chunks).coherence ≤ 1) ∧
    (0 ≤ (evaluate_response_quality query response chunks).completeness ∧
      (evaluate_response_quality query response chunks).completeness ≤ 1) ∧
    (0 ≤ (evaluate_response_quality query response chunks).accuracy ∧
      (evaluate_response_quality query response chunks).accuracy ≤ 1) ∧
    (0 ≤ (evaluate_response_quality query response chunks).conciseness ∧
      (evaluate_response_quality query response chunks).conciseness ≤ 1) ∧
    (0 ≤ (evaluate_response_quality query response chunks).groundedness ∧
      (evaluate_response_quality query response chunks).groundedness ≤ 1) ∧
    (evaluate_response_quality query response chunks).overall =
      (evaluate_response_quality query response chunks).relevance * (25/100) +
      (evaluate_response_quality query response chunks).coherence * (15/100) +
      (evaluate_response_quality query response chunks).completeness * (20/100) +
      (evaluate_response_quality query response chunks).accuracy * (20/100) +
      (evaluate_response_quality query response chunks).conciseness * (10/100) +
      (evaluate_response_quality query response chunks).groundedness * (10/100) ∧
    0 ≤ (evaluate_response_quality query response chunks).overall ∧
    (evaluate_response_quality query response chunks).overall ≤ 1 := by
  have hr := relevanceScore_bounds query response chunks
  have hco := coherenceScore_bounds response
  have hcm := completenessScore_bounds query response
  have hac := accuracyScore_bounds chunks h
  have hcn := concisenessScore_bounds response
  have hg := groundednessScore_bounds response chunks
  have hov : (evaluate_response_quality query response chunks).overall =
      relevanceScore query response chunks * (25/100) +
      coherenceScore response * (15/100) +
      completenessScore query response * (20/100) +
      accuracyScore chunks * (20/100) +
      concisenessScore response * (10/100) +
      groundednessScore response chunks * (10/100) := rfl
  refine ⟨hr, hco, hcm, hac, hcn, hg, rfl, ?_, ?_⟩
  · rw [hov]
    have := hr.1; have := hco.1; have := hcm.1; have := hac.1; have := hcn.1; have := hg.1
    linarith
  · rw [hov]
    have := hr.2; have := hco.2; have := hcm.2; have := hac.2; have := hcn.2; have := hg.2
    linarith

/-- Witness for C5 amended at the empty chunk list. -/
theorem quality_scores_bounded_witness :
    (∀ c ∈ ([] : List ContextChunk), 0 ≤ c.score ∧ c.score ≤ 1) ∧
    0 ≤ (evaluate_response_quality "what is x" "short answer" []).overall ∧
    (evaluate_response_quality "what is x" "short answer" []).overall ≤ 1 := by
  refine ⟨by simp, ?_, ?_⟩
  · exact (quality_scores_bounded_amended "what is x" "short answer" []
      (by simp)).2.2.2.2.2.2.2.1
  · exact (quality_scores_bounded_amended "what is x" "short answer" []
      (by simp)).2.2.2.2.2.2.2.2

/-- C3 counterexample: with the guardrail configured and a warm cache
entry for `"hello"`, the handler still runs the guardrail pre-check
and PII detection *before* the cache lookup, and both occur although
the lookup hits — the claimed order (lookup first, pre-check only on a
miss) is false on this input. -/
theorem precheck_runs_before_cache_lookup_counterexample :
    (handler envHit "hello" "conv-9").status = 200 ∧
    bodyResponse (handler envHit "hello" "conv-9").body = some "cached answer" ∧
    (handler envHit "hello" "conv-9").trace =
      [.safetyIn "hello", .piiDetect "hello", .historyFetch, .cacheLookup "hello"] ∧
    Step.safetyIn "hello" ∈ (handler envHit "hello" "conv-9").trace ∧
    Step.piiDetect "hello" ∈ (handler envHit "hello" "conv-9").trace := by
  exact ⟨by decide, by decide, by decide, by decide, by decide⟩

/-- C3 amended: the guardrail pre-check (when configured) and PII
detection run before the cache lookup on every request; a cache hit
short-circuits everything after the lookup — no complexity scoring, no
retrieval, no model invocation, no output check, no quality
evaluation, no conversation store and no cache write — and returns the
stored payload unchanged. -/
theorem cache_hit_short_circuit_amended (env : Env) (query conversation_id : String)
    (d : ResponseData) (hq : query ≠ "") (hsafe : env.inputSafe = true)
    (hhit : get_cached_response env.hash env.store env.now query = some d) :
    (handler env query conversation_id).status = 200 ∧
    (handler env query conversation_id).body = .hit d 0 ∧
    (handler env query conversation_id).trace =
      (if env.governance && env.guardrailId then [Step.safetyIn query] else []) ++
        [Step.piiDetect query, Step.historyFetch, Step.cacheLookup query] ∧
    (∀ t, Step.modelInvoke t ∉ (handler env query conversation_id).trace) ∧
    Step.complexityStep ∉ (handler env query conversation_id).trace ∧
    (∀ q, Step.retrieveStep q ∉ (handler env query conversation_id).trace) ∧
    (∀ s, Step.safetyOut s ∉ (handler env query conversation_id).trace) ∧
    (∀ q resp, Step.storeConv q resp ∉ (handler env query conversation_id).trace) ∧
    (∀ q resp, Step.qualityEval q resp ∉ (handler env query conversation_id).trace) ∧
    (∀ q, Step.cacheWrite q ∉ (handler env query conversation_id).trace) ∧
    (handler env query conversation_id).store = env.store := by
  have hres : handler env query conversation_id =
      { status := 200, body := .hit d 0,
        trace := (if env.governance && env.guardrailId then [Step.safetyIn query] else []) ++
          [Step.piiDetect query, Step.historyFetch, Step.cacheLookup query],
        store := env.store } := by
    simp only [handler, hhit]
    rw [if_neg hq, if_neg (by simp [hsafe])]
  rw [hres]
  refine ⟨rfl, rfl, rfl, ?_, ?_, ?_, ?_, ?_, ?_, ?_, rfl⟩ <;>
  · intros
    by_cases hb : env.governance && env.guardrailId <;> simp [hb]

/-- Witness for C3 amended at the concrete warm-cache environment. -/
theorem cache_hit_short_circuit_witness :
    ("hello" ≠ "") ∧ envHit.inputSafe = true ∧
    get_cached_response envHit.hash envHit.store envHit.now "hello" = some cachedPayload ∧
    (handler envHit "hello" "conv-9").body = .hit cachedPayload 0 ∧
    (∀ t, Step.modelInvoke t ∉ (handler envHit "hello" "conv-9").trace) := by
  refine ⟨by decide, rfl, by decide, ?_, ?_⟩
  · exact (cache_hit_short_circuit_amended envHit "hello" "conv-9" cachedPayload
      (by decide) rfl (by decide)).2.1
  · exact (cache_hit_short_circuit_amended envHit "hello" "conv-9" cachedPayload
      (by decide) rfl (by decide)).2.2.2.1

/-- C4 counterexample: when the input guardrail intervenes, the
handler terminates with a caller-visible 400 error — not a successful
response with a safe substitute — so guardrail intervention is not
always a 200-equivalent outcome and the empty query is not the only
caller-visible error. -/
theorem input_guardrail_block_is_error_counterexample :
    envBlockedInput.inputSafe = false ∧
    (handler envBlockedInput "tell me something" "conv-2").status = 400 ∧
    (handler envBlockedInput "tell me something" "conv-2").body =
      .err "Content blocked by safety guardrails" := by
  exact ⟨rfl, by decide, by decide⟩

/-- C4 amended: an empty query and an input-side guardrail
intervention both terminate as a caller-visible 400 error; only an
*output-side* guardrail intervention is absorbed into a successful 200
response whose answer is the fixed safe substitute message. -/
theorem guardrail_termination_amended (env : Env) (query conversation_id r : String) :
    (query = "" →
      (handler env query conversation_id).status = 400 ∧
      (handler env query conversation_id).body = .err "Missing query parameter") ∧
    (query ≠ "" → env.governance = true → env.guardrailId = true → env.inputSafe = false →
      (handler env query conversation_id).status = 400 ∧
      (handler env query conversation_id).body = .err "Content blocked by safety guardrails") ∧
    (query ≠ "" → env.inputSafe = true →
      get_cached_response env.hash env.store env.now query = none →
      invoke_model_with_fallback env.attempt (select_model_tier query env.history).1 = some r →
      env.governance = true → env.guardrailId = true → env.outputSafe r = false →
      (handler env query conversation_id).status = 200 ∧
      bodyResponse (handler env query conversation_id).body = some safeResponseMessage) := by
  refine ⟨?_, ?_, ?_⟩
  · intro h
    simp [handler, h]
  · intro hq hg hid hin
    constructor <;>
    · simp only [handler]
      rw [if_neg hq, if_pos (by simp [hg, hid, hin])]
  · intro hq hsafe hmiss hinv hg hid hout
    have hblocked : (env.governance && env.guardrailId && !(env.outputSafe r)) = true := by
      simp [hg, hid, hout]
    refine ⟨?_, ?_⟩
    · simp only [handler, hmiss, hinv, hblocked]
      rw [if_neg hq, if_neg (by simp [hsafe])]
    · simp only [handler, hmiss, hinv, hblocked]
      rw [if_neg hq, if_neg (by simp [hsafe])]
      simp [bodyResponse, hblocked]
/-- Witness for C4 amended: the input-block path at a concrete
environment, and the output-block path at another. -/
theorem guardrail_termination_witness :
    ("tell me something" ≠ "") ∧ envBlockedInput.governance = true ∧
    envBlockedInput.guardrailId = true ∧ envBlockedInput.inputSafe = false ∧
    (handler envBlockedInput "tell me something" "conv-2").status = 400 ∧
    ("hello" ≠ "") ∧ envBlockedOutput.inputSafe = true ∧
    get_cached_response envBlockedOutput.hash envBlockedOutput.store envBlockedOutput.now
      "hello" = none ∧
    invoke_model_with_fallback envBlockedOutput.attempt
      (select_model_tier "hello" envBlockedOutput.history).1 = some "simple tier answer" ∧
    envBlockedOutput.outputSafe "simple tier answer" = false ∧
    (handler envBlockedOutput "hello" "conv-3").status = 200 ∧
    bodyResponse (handler envBlockedOutput "hello" "conv-3").body =
      some safeResponseMessage := by
  refine ⟨by decide, rfl, rfl, rfl, ?_, by decide, rfl, by decide, by decide, rfl, ?_, ?_⟩
  · exact ((guardrail_termination_amended envBlockedInput "tell me something" "conv-2"
      "r").2.1 (by decide) rfl rfl rfl).1
  · exact ((guardrail_termination_amended envBlockedOutput "hello" "conv-3"
      "simple tier answer").2.2 (by decide) rfl (by decide) (by decide) rfl rfl rfl).1
  · exact ((guardrail_termination_amended envBlockedOutput "hello" "conv-3"
      "simple tier answer").2.2 (by decide) rfl (by decide) (by decide) rfl rfl rfl).2

/-- C10: whenever the post-invocation output safety check reports the
generated answer unsafe, the answer is replaced by the fixed safe
message before any further use: the reply returned to the caller, the
exchange stored into conversation history, and the payload written to
the cache all carry exactly the safe message — the blocked model
output is never persisted or returned. -/
theorem blocked_output_never_persisted (env : Env) (query conversation_id r : String)
    (hq : query ≠ "") (hg : env.governance = true) (hid : env.guardrailId = true)
    (hsafe : env.inputSafe = true)
    (hmiss : get_cached_response env.hash env.store env.now query = none)
    (hinv : invoke_model_with_fallback env.attempt (select_model_tier query env.history).1 =
      some r)
    (hout : env.outputSafe r = false) :
    bodyResponse (handler env query conversation_id).body = some safeResponseMessage ∧
    Step.storeConv query safeResponseMessage ∈ (handler env query conversation_id).trace ∧
    (∀ q' r', Step.storeConv q' r' ∈ (handler env query conversation_id).trace →
      r' = safeResponseMessage) ∧
    ((handler env query conversation_id).store (cacheKey env.hash query)).map
      (fun e => e.response_data.response) = some safeResponseMessage := by
  have hblocked : (env.governance && env.guardrailId && !(env.outputSafe r)) = true := by
    simp [hg, hid, hout]
  refine ⟨?_, ?_, ?_, ?_⟩
  · simp only [handler, hmiss, hinv]
    rw [if_neg hq, if_neg (by simp [hsafe])]
    simp [bodyResponse, hblocked]
  · simp only [handler, hmiss, hinv]
    rw [if_neg hq, if_neg (by simp [hsafe])]
    simp [hblocked, hg, hid, hout]
  · intro q' r' hmem
    simp only [handler, hmiss, hinv] at hmem
    rw [if_neg hq, if_neg (by simp [hsafe])] at hmem
    by_cases hql : env.qualityOn <;>
      simp [hblocked, hg, hid, hout, hql] at hmem <;>
      exact hmem.2
  · simp only [handler, hmiss, hinv]
    rw [if_neg hq, if_neg (by simp [hsafe])]
    simp [cache_response, hblocked]

/-- Witness for C10 at the concrete output-blocking environment. -/
theorem blocked_output_never_persisted_witness :
    ("hello" ≠ "") ∧ envBlockedOutput.governance = true ∧
    envBlockedOutput.guardrailId = true ∧ envBlockedOutput.inputSafe = true ∧
    get_cached_response envBlockedOutput.hash envBlockedOutput.store envBlockedOutput.now
      "hello" = none ∧
    invoke_model_with_fallback envBlockedOutput.attempt
      (select_model_tier "hello" envBlockedOutput.history).1 = some "simple tier answer" ∧
    envBlockedOutput.outputSafe "simple tier answer" = false ∧
    bodyResponse (handler envBlockedOutput "hello" "conv-4").body =
      some safeResponseMessage := by
  refine ⟨by decide, rfl, rfl, rfl, by decide, by decide, rfl, ?_⟩
  exact (blocked_output_never_persisted envBlockedOutput "hello" "conv-4" "simple tier answer"
    (by decide) rfl rfl rfl (by decide) (by decide) rfl).1

/-- A successful pattern match at some start position extends to a
search success over any longer text ending with that suffix. -/
theorem anySuffix_of_append (p : List Char → Bool) (pre suf : List Char)
    (h : p suf = true) : anySuffix p (pre ++ suf) = true := by
  induction pre with
  | nil =>
    cases suf with
    | nil => simpa [anySuffix] using h
    | cons c cs => simpa [anySuffix] using Or.inl h
  | cons a pre ih =>
    simp [anySuffix, ih]

/-- `AKIA` followed by 16 characters of `[0-9A-Z]` matches the
access-key pattern at the start position. -/
theorem akiaMatchAt_of_run (run post : List Char) (hlen : run.length = 16)
    (hall : run.all upperAlnum = true) :
    akiaMatchAt ('A' :: 'K' :: 'I' :: 'A' :: (run ++ post)) = true := by
  simp only [akiaMatchAt]
  have htake : (run ++ post).take 16 = run := by
    rw [← hlen]
    exact List.take_left run post
  rw [htake]
  simp [hlen, hall]

/-- The blocked-topic fold of `validate_input` only appends issues. -/
theorem validate_topics_foldl_append (tl : String) :
    ∀ (l : List BlockedTopic) (acc : List String),
      ∃ t, l.foldl
        (fun acc topic =>
          if topic.keywords.any (fun kw => containsSub tl kw) then
            acc ++ ["Blocked topic detected: " ++ topic.topic]
          else acc) acc = acc ++ t := by
  intro l
  induction l with
  | nil => intro acc; exact ⟨[], by simp⟩
  | cons x xs ih =>
    intro acc
    by_cases hx : x.keywords.any (fun kw => containsSub tl kw)
    · obtain ⟨t, ht⟩ := ih (acc ++ ["Blocked topic detected: " ++ x.topic])
      exact ⟨("Blocked topic detected: " ++ x.topic) :: t, by
        simp only [List.foldl_cons, hx, if_pos]
        simpa using ht⟩
    · obtain ⟨t, ht⟩ := ih acc
      exact ⟨t, by simp only [List.foldl_cons, hx, if_neg]; simpa using ht⟩

/-- A string containing a character that is not whitespace does not
strip to the empty string. -/
theorem pyTrim_ne_empty (s : String) (c : Char) (hc : c ∈ s.data)
    (hw : c.isWhitespace = false) : pyTrim s ≠ "" := by
  intro hcontra
  have hdata : (((s.data.dropWhile Char.isWhitespace).reverse.dropWhile
      Char.isWhitespace).reverse) = [] := congrArg String.data hcontra
  rw [List.reverse_eq_nil_iff, List.dropWhile_eq_nil_iff] at hdata
  have hmem : c ∈ s.data.dropWhile Char.isWhitespace := by
    have hsplit := List.takeWhile_append_dropWhile (p := Char.isWhitespace) (l := s.data)
    rw [← hsplit] at hc
    rcases List.mem_append.1 hc with h1 | h2
    · exact absurd (List.mem_takeWhile_imp h1) (by simp [hw])
    · exact h2
  have := hdata c (List.mem_reverse.2 hmem)
  simp [hw] at this

/-- C9 counterexample: the text `"AKIAabcdefghij012345"` consists of
`AKIA` followed by 16 alphanumeric characters, yet `validate_input`
reports it safe with no issues (the pattern `AKIA[0-9A-Z]{16}` only
accepts digits and *uppercase* letters), and the capture Lambda
forwards the query to downstream processing — so "AKIA + 16
alphanumerics is always flagged unsafe" is false on this input. -/
theorem akia_lowercase_not_flagged_counterexample :
    "AKIAabcdefghij012345" = "AKIA" ++ "abcdefghij012345" ∧
    "abcdefghij012345".length = 16 ∧
    "abcdefghij012345".data.all Char.isAlphanum = true ∧
    validate_input "AKIAabcdefghij012345" = (true, []) ∧
    (lambda_capture_query "AKIAabcdefghij012345").guardrail_triggered = false ∧
    (lambda_capture_query "AKIAabcdefghij012345").skip_processing = false := by
  exact ⟨rfl, by decide, by decide, by decide, by decide, by decide⟩

/-- C9 amended: every text containing `AKIA` followed by 16 characters
from `[0-9A-Z]` (digits or uppercase letters — the character class the
source pattern actually uses) matches the access-key pattern, is
flagged unsafe by `validate_input` with a non-empty issue list, and
the capture Lambda answers with the safe substitute and
`skip_processing = true`, so the text never reaches the downstream
inference steps. -/
theorem akia_uppercase_flagged_amended (pre run post : List Char)
    (hlen : run.length = 16) (hall : run.all upperAlnum = true) :
    matchesAWSAccessKey ⟨pre ++ "AKIA".data ++ run ++ post⟩ = true ∧
    (validate_input ⟨pre ++ "AKIA".data ++ run ++ post⟩).1 = false ∧
    (validate_input ⟨pre ++ "AKIA".data ++ run ++ post⟩).2 ≠ [] ∧
    (lambda_capture_query ⟨pre ++ "AKIA".data ++ run ++ post⟩).statusCode = 200 ∧
    (lambda_capture_query ⟨pre ++ "AKIA".data ++ run ++ post⟩).guardrail_triggered = true ∧
    (lambda_capture_query ⟨pre ++ "AKIA".data ++ run ++ post⟩).skip_processing = true := by
  have hakia : "AKIA".data = ['A', 'K', 'I', 'A'] := rfl
  have hm : matchesAWSAccessKey ⟨pre ++ "AKIA".data ++ run ++ post⟩ = true := by
    unfold matchesAWSAccessKey
    have hre : pre ++ "AKIA".data ++ run ++ post =
        pre ++ ('A' :: 'K' :: 'I' :: 'A' :: (run ++ post)) := by
      rw [hakia]
      simp [List.append_assoc]
    show anySuffix akiaMatchAt (String.mk (pre ++ "AKIA".data ++ run ++ post)).toList = true
    have htl : (String.mk (pre ++ "AKIA".data ++ run ++ post)).toList =
        pre ++ ('A' :: 'K' :: 'I' :: 'A' :: (run ++ post)) := hre
    rw [htl]
    exact anySuffix_of_append _ pre _ (akiaMatchAt_of_run run post hlen hall)
  have hissues : ∃ t, (validate_input ⟨pre ++ "AKIA".data ++ run ++ post⟩).2 =
      "Detected AWS Access Key: AWS Access Key ID" :: t := by
    unfold validate_input
    rw [hm]
    obtain ⟨t, ht⟩ := validate_topics_foldl_append
      (lowerStr ⟨pre ++ "AKIA".data ++ run ++ post⟩) blocked_topics
      (["Detected AWS Access Key: AWS Access Key ID"] ++
        (if matchesSecretKey ⟨pre ++ "AKIA".data ++ run ++ post⟩ then
          ["Detected AWS Secret Key: Potential AWS Secret Access Key"] else []) ++
        (if matchesPassword ⟨pre ++ "AKIA".data ++ run ++ post⟩ then
          ["Detected Password: Password in plain text"] else []) ++
        (if matchesPrivateKey ⟨pre ++ "AKIA".data ++ run ++ post⟩ then
          ["Detected Private Key: Private key material"] else []) ++
        (if matchesAPIKey ⟨pre ++ "AKIA".data ++ run ++ post⟩ then
          ["Detected API Key: Generic API key"] else []))
    simp only [if_true]
    refine ⟨(if matchesSecretKey ⟨pre ++ "AKIA".data ++ run ++ post⟩ then
          ["Detected AWS Secret Key: Potential AWS Secret Access Key"] else []) ++
        (if matchesPassword ⟨pre ++ "AKIA".data ++ run ++ post⟩ then
          ["Detected Password: Password in plain text"] else []) ++
        (if matchesPrivateKey ⟨pre ++ "AKIA".data ++ run ++ post⟩ then
          ["Detected Private Key: Private key material"] else []) ++
        (if matchesAPIKey ⟨pre ++ "AKIA".data ++ run ++ post⟩ then
          ["Detected API Key: Generic API key"] else []) ++ t, ?_⟩
    rw [ht]
    simp [List.append_assoc]
  obtain ⟨t, ht⟩ := hissues
  have hv1 : (validate_input ⟨pre ++ "AKIA".data ++ run ++ post⟩).1 = false := by
    have : (validate_input ⟨pre ++ "AKIA".data ++ run ++ post⟩).1 =
        ((validate_input ⟨pre ++ "AKIA".data ++ run ++ post⟩).2).isEmpty := by
      unfold validate_input
      rfl
    rw [this, ht]
    rfl
  have hne : (String.mk (pre ++ "AKIA".data ++ run ++ post)) ≠ "" := by
    intro hcontra
    have hd : pre ++ "AKIA".data ++ run ++ post = [] := congrArg String.data hcontra
    have hA : 'A' ∈ pre ++ "AKIA".data ++ run ++ post := by
      refine List.mem_append.2 (Or.inl ?_)
      refine List.mem_append.2 (Or.inl ?_)
      refine List.mem_append.2 (Or.inr ?_)
      rw [hakia]
      simp
    rw [hd] at hA
    simp at hA
  have htrim : pyTrim (String.mk (pre ++ "AKIA".data ++ run ++ post)) ≠ "" := by
    refine pyTrim_ne_empty _ 'A' ?_ (by decide)
    show 'A' ∈ pre ++ "AKIA".data ++ run ++ post
    refine List.mem_append.2 (Or.inl ?_)
    refine List.mem_append.2 (Or.inl ?_)
    refine List.mem_append.2 (Or.inr ?_)
    rw [hakia]
    simp
  have hcap : lambda_capture_query (String.mk (pre ++ "AKIA".data ++ run ++ post)) =
      { statusCode := 200, guardrail_triggered := true, skip_processing := true,
        response := some (generate_safe_response
          (validate_input ⟨pre ++ "AKIA".data ++ run ++ post⟩).2 []) } := by
    unfold lambda_capture_query
    have hcond : (decide ((String.mk (pre ++ "AKIA".data ++ run ++ post)) = "") ||
        decide (pyTrim (String.mk (pre ++ "AKIA".data ++ run ++ post)) = "")) = false := by
      rw [decide_eq_false hne, decide_eq_false htrim]
      rfl
    rw [if_neg (by rw [hcond]; exact Bool.false_ne_true)]
    rw [if_pos (by rw [hv1]; rfl)]
  exact ⟨hm, hv1, by rw [ht]; simp, by rw [hcap], by rw [hcap], by rw [hcap]⟩

/-- Witness for C9 amended at the concrete key
`AKIAABCDEFGHIJ012345`. -/
theorem akia_uppercase_flagged_witness :
    ("ABCDEFGHIJ012345".data.length = 16) ∧
    ("ABCDEFGHIJ012345".data.all upperAlnum = true) ∧
    (validate_input ⟨[] ++ "AKIA".data ++ "ABCDEFGHIJ012345".data ++ []⟩).1 = false ∧
    (lambda_capture_query ⟨[] ++ "AKIA".data ++ "ABCDEFGHIJ012345".data ++ []⟩).skip_processing
      = true := by
  refine ⟨by decide, by decide, ?_, ?_⟩
  · exact (akia_uppercase_flagged_amended [] "ABCDEFGHIJ012345".data []
      (by decide) (by decide)).2.1
  · exact (akia_uppercase_flagged_amended [] "ABCDEFGHIJ012345".data []
      (by decide) (by decide)).2.2.2.2.2

end GenAI
